import Mathlib

/-!
Shallow embedding of `quantum/plugins/cisco/n1kv/n1kv_client.py` (Cisco
Nexus1000V VSM REST client) and proofs about its behaviour.

Conventions of the embedding:
* Python `None` inside a body mapping is `Val.null`; a body mapping is an
  association list with Python `dict.update` semantics (`Body.set`).
* A request body argument (which in Python may be `None`, a `dict` or some
  other object such as a plain string) is `PyBody`.
* Raising an exception is modelled by `Option`/`Except` results or by a
  dedicated `Outcome` constructor; the functions mirror the control flow of the source line by line.
* External collaborators that the client only calls (the credential store
  lookup, the wire serializer, the metadata-driven XML deserializer) are
  passed in as function parameters, so every theorem quantifies over them.
-/

namespace N1kv

/-- A value stored in a request body mapping: a string, an integer, or the
Python `None` marker (`null`). -/
inductive Val where
  | str (s : String)
  | int (n : Int)
  | null
deriving DecidableEq, Repr

/-- A body mapping: string keys to values, insertion ordered, as built by the
facade methods from Python dict literals. -/
def Body := List (String × Val)
deriving DecidableEq, Repr

/-- Python `dict.update` with a single key: remove any old binding, append the new
one. -/
def Body.set (b : Body) (k : String) (v : Val) : Body :=
  (List.filter (fun p => p.1 ≠ k) b) ++ [(k, v)]

/-- Lookup of a key in a body mapping. -/
def Body.lookup (b : Body) (k : String) : Option Val :=
  (List.find? (fun p => p.1 == k) b).map (fun p => p.2)

/-- The body argument of a request as passed to `_do_request`: Python `None`,
a dict, or a non-mapping object; the only non-mapping bodies exercised in
the source and spec are plain strings, so that is what the third
constructor carries. -/
inductive PyBody where
  | pyNone
  | pyDict (d : Body)
  | pyStr (s : String)
deriving DecidableEq, Repr

/-- Python truthiness of the body argument (`if body:` in `_do_request`):
`None`, the empty dict and the empty string are falsy. -/
def PyBody.truthy : PyBody → Bool
  | .pyNone => false
  | .pyDict d => !d.isEmpty
  | .pyStr s => s ≠ ""

/-- Python truthiness of an optional string (`if event_type:`,
`if subnet[cidr]:`): `None` and the empty string are falsy. -/
def optStrTruthy : Option String → Bool
  | some s => s ≠ ""
  | none => false

/-! ### Resource Path Registry (class attributes of `Client`) -/

def profiles_path : String := "/virtual-port-profile"
def network_segments_path : String := "/network-segment"
def network_segment_path (s : String) : String := "/network-segment/" ++ s
def network_segment_pools_path : String := "/network-segment-pool"
def network_segment_pool_path (s : String) : String := "/network-segment-pool/" ++ s
def ip_pools_path : String := "/ip-pool-template"
def ip_pool_path (s : String) : String := "/ip-pool-template/" ++ s
def ports_path (s : String) : String := "/kvm/vm-network/" ++ s ++ "/ports"
def port_path (a b : String) : String := "/kvm/vm-network/" ++ a ++ "/ports/" ++ b
def vm_networks_path : String := "/kvm/vm-network"
def vm_network_path (s : String) : String := "/kvm/vm-network/" ++ s
def bridge_domains_path : String := "/kvm/bridge-domain"
def bridge_domain_path (s : String) : String := "/kvm/bridge-domain/" ++ s
def fabric_networks_path : String := "/logical-network"
def fabric_network_path (s : String) : String := "/logical-network/" ++ s
def events_path : String := "/kvm/events"

/-! ### Client instance state

The path templates above are class attributes; the only one the source ever
rebinds on an instance is `events_path` (in `list_events`), so the client
record carries that one as mutable per-instance state, initialised from the
class attribute. `__init__` sets `format`, `action_prefix` (here
`action_base`, renamed) and `hosts`. -/

/-- One entry of the credential catalog; `CREDENTIAL_NAME` holds the VSM ip
address. -/
structure Credential where
  credential_name : String
deriving DecidableEq, Repr

/-- Source `_get_vsm_hosts`: map the credential catalog to the list of host
addresses. -/
def get_vsm_hosts (credentials : List Credential) : List String :=
  credentials.map (fun cr => cr.credential_name)

/-- Per-instance state of the client. `action_base` embeds the source field
`action_prefix`. -/
structure Client where
  format : String
  action_base : String
  hosts : List String
  events_path : String
deriving DecidableEq, Repr

/-- Source `Client.__init__`: format json, action prefix `/api/n1k`, hosts from the
credential catalog; `events_path` starts at the class attribute. -/
def Client.init (credentials : List Credential) : Client :=
  { format := "json"
    action_base := "/api/n1k"
    hosts := get_vsm_hosts credentials
    events_path := N1kv.events_path }

/-! ### Requests built by the facade methods -/

/-- The request a facade method hands to `_do_request`. -/
structure Request where
  method : String
  action : String
  body : PyBody
deriving DecidableEq, Repr

/-- Source `_post` as used by the facade: POST with a dict body. -/
def post (action : String) (body : Body) : Request :=
  { method := "POST", action := action, body := .pyDict body }

/-- Source `_get`: GET with no body. -/
def get (action : String) : Request :=
  { method := "GET", action := action, body := .pyNone }

/-- Source `_delete`: DELETE with no body. -/
def delete (action : String) : Request :=
  { method := "DELETE", action := action, body := .pyNone }

/-- Lookup of a key in the dict body of a request (none for non-dict bodies). -/
def Request.bodyLookup (r : Request) (k : String) : Option Val :=
  match r.body with
  | .pyDict b => Body.lookup b k
  | _ => none

/-- Source `list_events`: when `event_type` is truthy the source REBINDS the
instance attribute `self.events_path` (`self.events_path =
self.events_path + ?type= + event_type`), then issues a GET against it;
the returned pair is the updated client state and the request. -/
def list_events (c : Client) (event_type : Option String) : Client × Request :=
  let c :=
    if optStrTruthy event_type then
      { c with events_path := c.events_path ++ "?type=" ++ event_type.getD "" }
    else c
  (c, get c.events_path)

/-! ### Facade body builders for network segments and ip pools -/

/-- Modelled from the spec: the constants module
(`cisco_constants.TYPE_VLAN`) is not among the sources; the spec treats the
VLAN network type as one distinct type tag. -/
def TYPE_VLAN : String := "vlan"

/-- Modelled from the spec: the constants module
(`cisco_constants.TYPE_VXLAN`) is not among the sources; the spec treats the
VXLAN network type as a type tag distinct from VLAN. -/
def TYPE_VXLAN : String := "vxlan"

/-- The domain network mapping as read by `create_network_segment` and
`create_bridge_domain`: keys `name`, `id`, `provider:network_type`,
`provider:segmentation_id`, `n1kv:multicast_ip`. -/
structure Network where
  name : String
  id : String
  network_type : String
  segmentation_id : Int
  multicast_ip : String
deriving DecidableEq, Repr

/-- Source `create_network_segment`: base body of `name`/`id`/`networkSegmentPool`,
then `vlan` is added when the network type is VLAN and `bridgeDomain`
(name suffixed `_bd`) when it is VXLAN; POST to the collection path. -/
def create_network_segment (network : Network) (profile_name : String) : Request :=
  let body : Body :=
    [("name", .str network.name),
     ("id", .str network.id),
     ("networkSegmentPool", .str profile_name)]
  let body :=
    if network.network_type = TYPE_VLAN then
      Body.set body "vlan" (.int network.segmentation_id)
    else body
  let body :=
    if network.network_type = TYPE_VXLAN then
      Body.set body "bridgeDomain" (.str (network.name ++ "_bd"))
    else body
  post network_segments_path body

/-- Source `create_bridge_domain`: body of synthesized name, segment id and
multicast group ip; POST to the bridge-domain collection path. -/
def create_bridge_domain (network : Network) : Request :=
  post bridge_domains_path
    [("name", .str (network.name ++ "_bd")),
     ("segmentId", .int network.segmentation_id),
     ("groupIp", .str network.multicast_ip)]

/-! ### netaddr model for `create_ip_pool`

`netaddr.IPNetwork` is a third-party library; the slice the source uses is
dotted-quad IPv4 CIDR parsing, `.netmask` and `.network`, embedded here as
arithmetic on 32-bit addresses. An unparsable cidr raises in Python, which
the embedding models as `none`. -/

/-- Split a character list on a separator character. -/
def splitOnChar (sep : Char) : List Char → List (List Char)
  | [] => [[]]
  | c :: cs =>
    if c = sep then [] :: splitOnChar sep cs
    else
      match splitOnChar sep cs with
      | g :: gs => (c :: g) :: gs
      | [] => [[c]]

/-- Accumulate decimal digits into a number, failing on a non-digit. -/
def digitsToNatAux : List Char → Nat → Option Nat
  | [], acc => some acc
  | c :: cs, acc =>
    if c.isDigit then digitsToNatAux cs (acc * 10 + (c.toNat - 48))
    else none

/-- Parse a nonempty decimal digit string. -/
def digitsToNat : List Char → Option Nat
  | [] => none
  | c :: cs => digitsToNatAux (c :: cs) 0

/-- Parse one decimal octet (0..255). -/
def parseOctet (cs : List Char) : Option Nat :=
  match digitsToNat cs with
  | some n => if n ≤ 255 then some n else none
  | none => none

/-- Parse a dotted-quad IPv4 address into its 32-bit value. -/
def parseIPv4 (cs : List Char) : Option Nat :=
  match splitOnChar '.' cs with
  | [a, b, c, d] =>
    match parseOctet a, parseOctet b, parseOctet c, parseOctet d with
    | some a, some b, some c, some d =>
      some (((a * 256 + b) * 256 + c) * 256 + d)
    | _, _, _, _ => none
  | _ => none

/-- Parse `a.b.c.d/p` into the address value and the routing-prefix
length. -/
def parseCIDR (s : String) : Option (Nat × Nat) :=
  match splitOnChar '/' s.data with
  | [ip, p] =>
    match parseIPv4 ip, digitsToNat p with
    | some a, some n => if n ≤ 32 then some (a, n) else none
    | _, _ => none
  | _ => none

/-- The netmask of a routing-prefix length, as a 32-bit value
(`IPNetwork.netmask`). -/
def prefixMask (p : Nat) : Nat := 2 ^ 32 - 2 ^ (32 - p)

/-- The network address: the address with its host bits cleared
(`IPNetwork.network`). -/
def networkOf (addr p : Nat) : Nat := addr / 2 ^ (32 - p) * 2 ^ (32 - p)

/-- One byte of a 32-bit value, byte 3 being the most significant. -/
def octet (n i : Nat) : Nat := n / 256 ^ i % 256

/-- Render a 32-bit value as a dotted quad (`str(...)` on netaddr ip
objects). -/
def ipToString (n : Nat) : String :=
  toString (octet n 3) ++ "." ++ toString (octet n 2) ++ "." ++
    toString (octet n 1) ++ "." ++ toString (octet n 0)

/-- Lines 220-225 of the source: a truthy cidr is parsed with
`netaddr.IPNetwork` and gives `(netmask, network_address)` as strings; a
falsy cidr gives two empty strings; an unparsable cidr raises (`none`). -/
def cidr_fields (cidr : Option String) : Option (String × String) :=
  if optStrTruthy cidr then
    match parseCIDR (cidr.getD "") with
    | some (addr, p) => some (ipToString (prefixMask p), ipToString (networkOf addr p))
    | none => none
  else some ("", "")

/-- One entry of `subnet['allocation_pools']`; `stop` embeds the source key
`end`. -/
structure AllocationPool where
  start : String
  stop : String
deriving DecidableEq, Repr

/-- The domain subnet mapping as read by `create_ip_pool`. -/
structure Subnet where
  cidr : Option String
  allocation_pools : List AllocationPool
  name : String
  gateway_ip : Val
deriving DecidableEq, Repr

/-- Lines 227-232 of the source: when the allocation-pool list is truthy,
take `start`/`end` of its FIRST entry, otherwise two Python `None`
markers. -/
def alloc_ranges : List AllocationPool → Val × Val
  | p :: _ => (.str p.start, .str p.stop)
  | [] => (.null, .null)

/-- Source `create_ip_pool`: netmask/network address from the cidr (empty strings
when the cidr is falsy), range start/end from the first allocation pool
(`alloc_ranges`), POST to the ip-pool collection path; `none` models the
netaddr exception on an unparsable cidr. -/
def create_ip_pool (subnet : Subnet) : Option Request :=
  match cidr_fields subnet.cidr with
  | none => none
  | some (netmask, network_address) =>
    let ranges : Val × Val := alloc_ranges subnet.allocation_pools
    some (post ip_pools_path
      [("addressRangeStart", ranges.1),
       ("addressRangeEnd", ranges.2),
       ("ipAddressSubnet", .str netmask),
       ("name", .str subnet.name),
       ("gateway", subnet.gateway_ip),
       ("networkAddress", .str network_address)])

/-! ### Fault translation -/

/-- Modelled from the spec: the exception classes `VSMError` (ServerFault,
carrying a reason) and `VSMConnectionFailed` (ServiceUnavailableFault,
carrying no reason) live in `cisco_exceptions`, which is not among the
sources; the spec describes them as a reason-carrying server fault and a
reasonless service-unavailable fault. -/
inductive Fault where
  | vsmError (reason : String)
  | vsmConnectionFailed
deriving DecidableEq, Repr

/-- HTTP status constants from `httplib` used by the source. -/
def OK : Nat := 200
def NOT_FOUND : Nat := 404
def INTERNAL_SERVER_ERROR : Nat := 500
def SERVICE_UNAVAILABLE : Nat := 503

/-- Source `_handle_fault_response`: raise `VSMError(reason=replybody)` on 500,
raise `VSMConnectionFailed` on 503, and fall through (raise nothing) on
every other status code; `_(...)` is the gettext identity on the body. -/
def handle_fault_response (status_code : Nat) (replybody : String) : Option Fault :=
  if status_code = INTERNAL_SERVER_ERROR then some (.vsmError replybody)
  else if status_code = SERVICE_UNAVAILABLE then some .vsmConnectionFailed
  else none

/-! ### Serializer -/

/-- Source `_serialize`: `None` passes through, a dict is serialized by the wire
serializer (`Serializer().serialize(data, content_type)`, passed in as
`wire`), and anything else raises (`Exception("unable to serialize object
of type = ...")`). -/
def serialize (wire : Body → String) : PyBody → Except String (Option String)
  | .pyNone => .ok none
  | .pyDict d => .ok (some (wire d))
  | .pyStr _ => .error "unable to serialize object of type = str"

/-! ### Deserializer -/

/-- The result of `_deserialize`: the raw body string (204 path) or the
value produced by the metadata-driven XML deserializer. -/
inductive DeserOut (β : Type) where
  | raw (s : String)
  | parsed (v : β)
deriving DecidableEq, Repr

/-- Attribute table of `_serialization_metadata` (`application/xml`). -/
def serialization_metadata_attributes : List (String × List String) :=
  [("network", ["id", "name"]),
   ("port", ["id", "mac_address"]),
   ("subnet", ["id", "prefix"])]

/-- Plural table of `_serialization_metadata`. -/
def serialization_metadata_plurals : List (String × String) :=
  [("networks", "network"), ("ports", "port"),
   ("set", "instance"), ("subnets", "subnet")]

/-- Source `_deserialize`: status 204 returns the raw data unchanged; any other
status hands the data to the metadata-driven XML deserializer
(`Serializer(self._serialization_metadata).deserialize(data,
application-xml)`, passed in as `xmlDeser`). -/
def deserialize (xmlDeser : String → β) (data : String) (status_code : Nat) : DeserOut β :=
  if status_code = 204 then .raw data else .parsed (xmlDeser data)

/-! ### Credential store and auth header -/

/-- Modelled from the spec: `cred.Store.get_username` / `get_password`
(`cisco_credentials_v2`) are not among the sources; the spec describes them
as a lookup service from a host address to a username/password pair. -/
structure CredStore where
  username : String → String
  password : String → String

/-- Base64 alphabet. -/
def b64chars : List Char :=
  "ABCDEFGHIJKLMNOPQRSTUVWXYZabcdefghijklmnopqrstuvwxyz0123456789+/".data

/-- One base64 digit. -/
def b64char (n : Nat) : Char := b64chars.getD n 'A'

/-- Encode a byte list into base64 characters with padding. -/
def b64groups : List Nat → List Char
  | a :: b :: c :: rest =>
    let n := (a * 256 + b) * 256 + c
    b64char (n / 262144) :: b64char (n / 4096 % 64) ::
      b64char (n / 64 % 64) :: b64char (n % 64) :: b64groups rest
  | [a, b] =>
    let n := (a * 256 + b) * 256
    [b64char (n / 262144), b64char (n / 4096 % 64), b64char (n / 64 % 64), '=']
  | [a] =>
    let n := a * 65536
    [b64char (n / 262144), b64char (n / 4096 % 64), '=', '=']
  | [] => []

/-- Python `base64.encodestring`: encode 57-byte chunks, each output line followed
by a newline. -/
def encodestringChunks (bs : List Nat) : List Char :=
  match bs with
  | [] => []
  | b :: rest =>
    b64groups (List.take 57 (b :: rest)) ++ '\n' ::
      encodestringChunks (List.drop 57 (b :: rest))
termination_by bs.length
decreasing_by simp [List.length_drop]; omega

/-- Python `base64.encodestring` on an (ASCII) string. -/
def encodestring (s : String) : String :=
  String.mk (encodestringChunks (s.data.map Char.toNat))

/-- Header mappings. -/
def Headers := List (String × String)
deriving DecidableEq, Repr

/-- Source `_get_header`: fetch username and password for the host from the
credential store, base64-encode `username:password`, and build the
Authorization / Content-Type headers. -/
def get_header (store : CredStore) (host_ip : String) : Headers :=
  let auth := encodestring (store.username host_ip ++ ":" ++ store.password host_ip)
  [("Authorization", "Basic " ++ auth),
   ("Content-Type", "application/json")]

/-! ### Request executor (`_do_request`) -/

/-- Python truthiness of the headers argument (`if not headers`): `None`
and an empty mapping are falsy. -/
def headersFalsy : Option Headers → Bool
  | none => true
  | some h => List.isEmpty h

/-- Substring test on character lists. -/
def charsContain (sub : List Char) : List Char → Bool
  | [] => sub.isEmpty
  | x :: xs => List.isPrefixOf sub (x :: xs) || charsContain sub xs

/-- Python `sub in s` on strings. -/
def strContains (s sub : String) : Bool := charsContain sub.data s.data

/-- The HTTP response the transport hands back: status code, content-type
header and body. -/
structure HttpResponse where
  status : Nat
  content_type : String
  body : String
deriving DecidableEq, Repr

/-- How one `_do_request` call ends: a normal return (with the payload, or
Python `None`), a raised fault, the serialization exception, or the
IndexError from `self.hosts[0]` on an empty host list. -/
inductive Outcome (β : Type) where
  | ret (payload : Option (DeserOut β))
  | fault (f : Fault)
  | serializationError (msg : String)
  | indexError
deriving DecidableEq, Repr

/-- Whether the outcome is a raised VSM fault. -/
def Outcome.isFault : Outcome β → Bool
  | .fault _ => true
  | _ => false

/-- Observable record of one `_do_request` call: the host a connection was
opened to (`none` when the call raised before connecting), the request url,
the headers variable after the default-header step, and the outcome. -/
structure RequestResult (β : Type) where
  opened : Option String
  method : String
  url : String
  headers : Option Headers
  outcome : Outcome β
deriving DecidableEq, Repr

/-- The response branch of `_do_request` (its final `if`/`elif` chain):
200 with an xml content type deserializes the body, 200 with a plain-text
content type only logs (returning `None`), 500/404/503 go through
`_handle_fault_response` (whose fall-through for 404 returns `None`), and
every other combination falls off the chain returning `None`. -/
def response_dispatch (xmlDeser : String → β) (resp : HttpResponse) : Outcome β :=
  if resp.status = OK ∧ strContains resp.content_type "application/xml" then
    .ret (some (deserialize xmlDeser resp.body resp.status))
  else if resp.status = OK ∧ strContains resp.content_type "text/plain" then
    .ret none
  else if resp.status = INTERNAL_SERVER_ERROR ∨ resp.status = NOT_FOUND ∨
      resp.status = SERVICE_UNAVAILABLE then
    match handle_fault_response resp.status resp.body with
    | some f => .fault f
    | none => .ret none
  else .ret none

/-- Source `_do_request`, line by line: prefix the action with `action_prefix`;
when the headers argument is falsy and the host list truthy, build default
auth headers for `hosts[0]`; when the body is truthy, serialize it (raising
on a non-mapping) and append two spaces; connect to `hosts[0]` (IndexError
when empty), then branch on status code and content type via
`response_dispatch`. -/
def do_request (store : CredStore) (wire : Body → String) (xmlDeser : String → β)
    (c : Client) (method action : String) (body : PyBody)
    (headers : Option Headers) (resp : HttpResponse) : RequestResult β :=
  let action := c.action_base ++ action
  let headers :=
    if headersFalsy headers then
      match c.hosts with
      | h :: _ => some (get_header store h)
      | [] => headers
    else headers
  let ser : Except String (Option String) :=
    if body.truthy then
      match serialize wire body with
      | .ok (some s) => .ok (some (s ++ "  "))
      | other => other
    else .ok none
  match ser with
  | .error msg =>
    { opened := none, method := method, url := action, headers := headers
      outcome := .serializationError msg }
  | .ok _ =>
    match c.hosts.head? with
    | none =>
      { opened := none, method := method, url := action, headers := headers
        outcome := .indexError }
    | some h =>
      { opened := some h
        method := method
        url := action
        headers := headers
        outcome := response_dispatch xmlDeser resp }

/-! ### Concrete collaborators used by witnesses -/

/-- A two-host credential catalog, as in the host-selection example of the
spec. -/
def demoCatalog : List Credential := [⟨"10.0.0.1"⟩, ⟨"10.0.0.2"⟩]

/-- A client built over the demo catalog. -/
def demoClient : Client := Client.init demoCatalog

/-- A concrete credential store. -/
def demoStore : CredStore :=
  { username := fun _ => "admin", password := fun _ => "secret" }

/-- A concrete wire serializer. -/
def demoWire : Body → String := fun _ => "wire"

/-- A concrete XML deserializer (identity on the body string). -/
def demoXml : String → String := fun s => s

/-! ### Helper lemmas -/

/-- Any body that is not a non-mapping value serializes without raising, so
`_do_request` reaches the connection to `hosts[0]` and its response
branch. -/
theorem do_request_eq (store : CredStore) (wire : Body → String)
    (xmlDeser : String → β) (c : Client) (method action : String)
    (body : PyBody) (headers : Option Headers) (resp : HttpResponse)
    (h : String) (t : List String) (hh : c.hosts = h :: t)
    (hb : ∀ s', body ≠ .pyStr s') :
    do_request store wire xmlDeser c method action body headers resp =
      { opened := some h
        method := method
        url := c.action_base ++ action
        headers := if headersFalsy headers then some (get_header store h) else headers
        outcome := response_dispatch xmlDeser resp } := by
  cases body with
  | pyStr s => exact absurd rfl (hb s)
  | pyNone => simp [do_request, PyBody.truthy, hh]
  | pyDict d =>
    by_cases hd : d.isEmpty <;>
      simp [do_request, PyBody.truthy, serialize, hh, hd]

/-- A 500 response is classified as `VSMError` carrying the raw body. -/
theorem response_dispatch_500 (xmlDeser : String → β) (resp : HttpResponse)
    (h5 : resp.status = 500) :
    response_dispatch xmlDeser resp = .fault (.vsmError resp.body) := by
  simp [response_dispatch, h5, OK, INTERNAL_SERVER_ERROR, NOT_FOUND,
    SERVICE_UNAVAILABLE, handle_fault_response]

/-- A 503 response is classified as `VSMConnectionFailed`. -/
theorem response_dispatch_503 (xmlDeser : String → β) (resp : HttpResponse)
    (h5 : resp.status = 503) :
    response_dispatch xmlDeser resp = .fault .vsmConnectionFailed := by
  simp [response_dispatch, h5, OK, INTERNAL_SERVER_ERROR, NOT_FOUND,
    SERVICE_UNAVAILABLE, handle_fault_response]

/-- A 404 response reaches the fault handler, which raises nothing, so the
dispatch returns `None`. -/
theorem response_dispatch_404 (xmlDeser : String → β) (resp : HttpResponse)
    (h4 : resp.status = 404) :
    response_dispatch xmlDeser resp = .ret none := by
  simp [response_dispatch, h4, OK, INTERNAL_SERVER_ERROR, NOT_FOUND,
    SERVICE_UNAVAILABLE, handle_fault_response]

/-! ### Claims -/

/-- C9: `_deserialize` invoked with status code 204 bypasses the XML
deserializer and returns the raw body unchanged, while any other status
code hands the body to the metadata-driven XML deserializer. -/
theorem deserialize_204_bypasses {β : Type} (xmlDeser : String → β) (data : String) :
    deserialize xmlDeser data 204 = .raw data ∧
    ∀ status_code, status_code ≠ 204 →
      deserialize xmlDeser data status_code = .parsed (xmlDeser data) := by
  refine ⟨by simp [deserialize], fun sc hsc => by simp [deserialize, hsc]⟩

/-- Witness for C9 at a concrete deserializer, body and the status codes
204 and 200. -/
theorem deserialize_204_bypasses_witness :
    deserialize (fun s => s) "payload" 204 = DeserOut.raw "payload" ∧
    deserialize (fun s => s) "payload" 200 = DeserOut.parsed "payload" :=
  ⟨(deserialize_204_bypasses (fun s => s) "payload").1,
   (deserialize_204_bypasses (fun s => s) "payload").2 200 (by decide)⟩

/-- C2 (code bug): `list_events` with a truthy `event_type` REBINDS the
`events_path` of the client, so client state is NOT restored after the call:
after one call the path is `/kvm/events?type=port_profile`, and a second
call both issues its GET against and leaves behind the malformed
`/kvm/events?type=port_profile?type=port_profile`. -/
theorem list_events_mutates_events_path :
    ((list_events (Client.init [⟨"10.0.0.1"⟩]) (some "port_profile")).1).events_path
        = "/kvm/events?type=port_profile" ∧
    (list_events ((list_events (Client.init [⟨"10.0.0.1"⟩])
        (some "port_profile")).1) (some "port_profile")).2.action =
      "/kvm/events?type=port_profile?type=port_profile" ∧
    ((list_events ((list_events (Client.init [⟨"10.0.0.1"⟩])
        (some "port_profile")).1) (some "port_profile")).1).events_path =
      "/kvm/events?type=port_profile?type=port_profile" ∧
    (list_events (Client.init [⟨"10.0.0.1"⟩]) (some "port_profile")).1 ≠
      Client.init [⟨"10.0.0.1"⟩] := by
  refine ⟨rfl, rfl, rfl, by decide⟩

/-- C1 (counterexample): a concrete request whose response is a 404 does NOT
raise any fault — `_handle_fault_response` classifies only 500 and 503 —
and instead returns normally with no payload. -/
theorem notfound_counterexample :
    (do_request demoStore demoWire demoXml demoClient "GET"
        (network_segment_path "ns1") .pyNone none
        ⟨404, "text/html", "not found"⟩).outcome = Outcome.ret none ∧
    Outcome.isFault ((do_request demoStore demoWire demoXml demoClient "GET"
        (network_segment_path "ns1") .pyNone none
        ⟨404, "text/html", "not found"⟩).outcome) = false := by
  refine ⟨rfl, rfl⟩

/-- C1 (amended): a 404 response is routed into the same fault-handling
dispatch as 500 and 503, but that handler classifies only 500 and 503 and
raises nothing for 404, so the call returns normally with no payload and no
fault. -/
theorem notfound_no_fault (store : CredStore) (wire : Body → String)
    (xmlDeser : String → β) (c : Client) (method action : String)
    (body : PyBody) (headers : Option Headers) (resp : HttpResponse)
    (h : String) (t : List String) (hh : c.hosts = h :: t)
    (hb : ∀ s', body ≠ .pyStr s') (h4 : resp.status = 404) :
    handle_fault_response resp.status resp.body = none ∧
    (do_request store wire xmlDeser c method action body headers resp).outcome =
      Outcome.ret none := by
  constructor
  · simp [handle_fault_response, h4, INTERNAL_SERVER_ERROR, SERVICE_UNAVAILABLE]
  · rw [do_request_eq store wire xmlDeser c method action body headers resp h t hh hb]
    exact response_dispatch_404 xmlDeser resp h4

/-- Witness for the amended statement of C1 at a concrete 404 response. -/
theorem notfound_no_fault_witness :
    handle_fault_response 404 "gone" = none ∧
    (do_request demoStore demoWire demoXml demoClient "DELETE"
        (ip_pool_path "p1") .pyNone none
        ⟨404, "application/xml", "gone"⟩).outcome = Outcome.ret none :=
  notfound_no_fault demoStore demoWire demoXml demoClient "DELETE"
    (ip_pool_path "p1") .pyNone none ⟨404, "application/xml", "gone"⟩
    "10.0.0.1" ["10.0.0.2"] rfl (fun s' => by simp) rfl

/-- C3: a 500 response raises `VSMError` whose reason is the raw response
body, and a 503 response raises `VSMConnectionFailed` (which carries no
reason), regardless of body content. -/
theorem fault_500_503 (store : CredStore) (wire : Body → String)
    (xmlDeser : String → β) (c : Client) (method action : String)
    (body : PyBody) (headers : Option Headers) (resp : HttpResponse)
    (h : String) (t : List String) (hh : c.hosts = h :: t)
    (hb : ∀ s', body ≠ .pyStr s') :
    (resp.status = 500 →
      (do_request store wire xmlDeser c method action body headers resp).outcome =
        Outcome.fault (.vsmError resp.body)) ∧
    (resp.status = 503 →
      (do_request store wire xmlDeser c method action body headers resp).outcome =
        Outcome.fault .vsmConnectionFailed) := by
  rw [do_request_eq store wire xmlDeser c method action body headers resp h t hh hb]
  exact ⟨response_dispatch_500 xmlDeser resp, response_dispatch_503 xmlDeser resp⟩

/-- Witness for C3: a 500 response with body `bad config` and a 503
response, both concrete. -/
theorem fault_500_503_witness :
    (do_request demoStore demoWire demoXml demoClient "POST"
        network_segments_path .pyNone none
        ⟨500, "text/html", "bad config"⟩).outcome =
      Outcome.fault (.vsmError "bad config") ∧
    (do_request demoStore demoWire demoXml demoClient "POST"
        network_segments_path .pyNone none
        ⟨503, "text/html", "try later"⟩).outcome =
      Outcome.fault .vsmConnectionFailed :=
  ⟨(fault_500_503 demoStore demoWire demoXml demoClient "POST"
      network_segments_path .pyNone none ⟨500, "text/html", "bad config"⟩
      "10.0.0.1" ["10.0.0.2"] rfl (fun s' => by simp)).1 rfl,
   (fault_500_503 demoStore demoWire demoXml demoClient "POST"
      network_segments_path .pyNone none ⟨503, "text/html", "try later"⟩
      "10.0.0.1" ["10.0.0.2"] rfl (fun s' => by simp)).2 rfl⟩

/-- C6: any response whose status/content-type pair is none of the
enumerated cases (200 with xml, 200 with plain text, 500, 404, 503) makes
the call return nothing: no payload and no raised error. -/
theorem other_responses_silent (store : CredStore) (wire : Body → String)
    (xmlDeser : String → β) (c : Client) (method action : String)
    (body : PyBody) (headers : Option Headers) (resp : HttpResponse)
    (h : String) (t : List String) (hh : c.hosts = h :: t)
    (hb : ∀ s', body ≠ .pyStr s')
    (hx : ¬(resp.status = OK ∧ strContains resp.content_type "application/xml" = true))
    (hp : ¬(resp.status = OK ∧ strContains resp.content_type "text/plain" = true))
    (hf : resp.status ≠ INTERNAL_SERVER_ERROR ∧ resp.status ≠ NOT_FOUND ∧
      resp.status ≠ SERVICE_UNAVAILABLE) :
    (do_request store wire xmlDeser c method action body headers resp).outcome =
      Outcome.ret none := by
  rw [do_request_eq store wire xmlDeser c method action body headers resp h t hh hb]
  show response_dispatch xmlDeser resp = Outcome.ret none
  rw [response_dispatch, if_neg hx, if_neg hp,
    if_neg (fun hor => hor.elim hf.1 (fun hor2 => hor2.elim hf.2.1 hf.2.2))]

/-- Witness for C6 at a concrete 302 redirect response. -/
theorem other_responses_silent_witness :
    (do_request demoStore demoWire demoXml demoClient "GET" profiles_path
        .pyNone none ⟨302, "text/html", "moved"⟩).outcome = Outcome.ret none :=
  other_responses_silent demoStore demoWire demoXml demoClient "GET"
    profiles_path .pyNone none ⟨302, "text/html", "moved"⟩
    "10.0.0.1" ["10.0.0.2"] rfl (fun s' => by simp)
    (by decide) (by decide) (by decide)

/-- C7 (counterexample): the empty string is a non-mapping body, yet a
request carrying it raises nothing — `if body:` is false for a falsy body,
so serialization is skipped entirely, a connection is opened and the call
completes normally. -/
theorem serialize_nonmapping_counterexample :
    (do_request demoStore demoWire demoXml demoClient "POST"
        network_segments_path (.pyStr "") none
        ⟨200, "text/plain", "ok"⟩).opened = some "10.0.0.1" ∧
    (do_request demoStore demoWire demoXml demoClient "POST"
        network_segments_path (.pyStr "") none
        ⟨200, "text/plain", "ok"⟩).outcome = Outcome.ret none := by
  refine ⟨rfl, rfl⟩

/-- C7 (amended): `_serialize` itself rejects every non-mapping (string)
body, and a request carrying a TRUTHY (non-empty) non-mapping body raises
the serialization error before any connection is opened; a falsy non-mapping
body (the empty string) skips serialization and the request proceeds. -/
theorem serialize_nonmapping_raises (store : CredStore) (wire : Body → String)
    (xmlDeser : String → β) (c : Client) (method action : String)
    (headers : Option Headers) (resp : HttpResponse)
    (s : String) (hs : s ≠ "") :
    serialize wire (.pyStr s) =
      .error "unable to serialize object of type = str" ∧
    (do_request store wire xmlDeser c method action (.pyStr s) headers resp).opened =
      none ∧
    (do_request store wire xmlDeser c method action (.pyStr s) headers resp).outcome =
      Outcome.serializationError "unable to serialize object of type = str" := by
  refine ⟨rfl, ?_, ?_⟩ <;> simp [do_request, PyBody.truthy, hs, serialize]

/-- Witness for the amended statement of C7 at the concrete truthy string body
`oops`. -/
theorem serialize_nonmapping_raises_witness :
    serialize demoWire (.pyStr "oops") =
      .error "unable to serialize object of type = str" ∧
    (do_request demoStore demoWire demoXml demoClient "POST"
        network_segments_path (.pyStr "oops") none
        ⟨200, "text/plain", "ok"⟩).opened = none ∧
    (do_request demoStore demoWire demoXml demoClient "POST"
        network_segments_path (.pyStr "oops") none
        ⟨200, "text/plain", "ok"⟩).outcome =
      Outcome.serializationError "unable to serialize object of type = str" :=
  serialize_nonmapping_raises demoStore demoWire demoXml demoClient "POST"
    network_segments_path none ⟨200, "text/plain", "ok"⟩ "oops" (by decide)

/-- C8: every request that reaches the transport connects to the first host
of the host registry, whatever method, path, body or response the call has;
and a call made without explicit headers sends the Basic-Authorization
header built, via the credential store passed to this very call, from the
username and password of that same first host. -/
theorem first_host_and_auth (store : CredStore) (wire : Body → String)
    (xmlDeser : String → β) (c : Client) (method action : String)
    (body : PyBody) (resp : HttpResponse)
    (h : String) (t : List String) (hh : c.hosts = h :: t)
    (hb : ∀ s', body ≠ .pyStr s') :
    (do_request store wire xmlDeser c method action body none resp).headers =
      some (get_header store h) ∧
    get_header store h =
      [("Authorization",
        "Basic " ++ encodestring (store.username h ++ ":" ++ store.password h)),
       ("Content-Type", "application/json")] ∧
    ∀ x, (do_request store wire xmlDeser c method action body none resp).opened =
      some x → x = h := by
  rw [do_request_eq store wire xmlDeser c method action body none resp h t hh hb]
  refine ⟨by simp [headersFalsy], rfl, ?_⟩
  intro x hx
  exact (by simpa using hx : h = x).symm

/-- Witness for C8: with the catalog `["10.0.0.1", "10.0.0.2"]`, a concrete
call connects to `10.0.0.1` and carries the Basic-Auth header of that host. -/
theorem first_host_and_auth_witness :
    (do_request demoStore demoWire demoXml demoClient "GET" profiles_path
        .pyNone none ⟨200, "text/plain", "ok"⟩).headers =
      some (get_header demoStore "10.0.0.1") ∧
    get_header demoStore "10.0.0.1" =
      [("Authorization",
        "Basic " ++ encodestring ("admin" ++ ":" ++ "secret")),
       ("Content-Type", "application/json")] ∧
    ∀ x, (do_request demoStore demoWire demoXml demoClient "GET" profiles_path
      .pyNone none ⟨200, "text/plain", "ok"⟩).opened = some x → x = "10.0.0.1" :=
  first_host_and_auth demoStore demoWire demoXml demoClient "GET" profiles_path
    .pyNone ⟨200, "text/plain", "ok"⟩ "10.0.0.1" ["10.0.0.2"] rfl
    (fun s' => by simp)

/-- The VLAN and VXLAN type tags are distinct. -/
theorem vlan_ne_vxlan : TYPE_VLAN ≠ TYPE_VXLAN := by decide

/-- C4: the network-segment body contains `vlan` (the segmentation id) and
no `bridgeDomain` for a VLAN-type network, `bridgeDomain`
(`<name>_bd`) and no `vlan` for a VXLAN-type network, and neither field for
any other network type. -/
theorem network_segment_fields (network : Network) (profile_name : String) :
    (network.network_type = TYPE_VLAN →
      (create_network_segment network profile_name).bodyLookup "vlan" =
          some (.int network.segmentation_id) ∧
      (create_network_segment network profile_name).bodyLookup "bridgeDomain" =
          none) ∧
    (network.network_type = TYPE_VXLAN →
      (create_network_segment network profile_name).bodyLookup "bridgeDomain" =
          some (.str (network.name ++ "_bd")) ∧
      (create_network_segment network profile_name).bodyLookup "vlan" = none) ∧
    (network.network_type ≠ TYPE_VLAN → network.network_type ≠ TYPE_VXLAN →
      (create_network_segment network profile_name).bodyLookup "vlan" = none ∧
      (create_network_segment network profile_name).bodyLookup "bridgeDomain" =
          none) := by
  refine ⟨fun h => ?_, fun h => ?_, fun h1 h2 => ?_⟩
  · simp [create_network_segment, h, vlan_ne_vxlan, Request.bodyLookup, post,
      Body.set, Body.lookup]
  · simp [create_network_segment, h, Ne.symm vlan_ne_vxlan, Request.bodyLookup,
      post, Body.set, Body.lookup]
  · simp [create_network_segment, h1, h2, Request.bodyLookup, post, Body.set,
      Body.lookup]

/-- Witness for C4 with one concrete VLAN network, one VXLAN network and
one flat network. -/
theorem network_segment_fields_witness :
    (create_network_segment ⟨"n1", "id1", "vlan", 42, "m"⟩ "pool").bodyLookup
        "vlan" = some (.int 42) ∧
    (create_network_segment ⟨"n1", "id1", "vlan", 42, "m"⟩ "pool").bodyLookup
        "bridgeDomain" = none ∧
    (create_network_segment ⟨"n2", "id2", "vxlan", 7, "m"⟩ "pool").bodyLookup
        "bridgeDomain" = some (.str "n2_bd") ∧
    (create_network_segment ⟨"n2", "id2", "vxlan", 7, "m"⟩ "pool").bodyLookup
        "vlan" = none ∧
    (create_network_segment ⟨"n3", "id3", "flat", 0, "m"⟩ "pool").bodyLookup
        "vlan" = none ∧
    (create_network_segment ⟨"n3", "id3", "flat", 0, "m"⟩ "pool").bodyLookup
        "bridgeDomain" = none := by
  have hv := (network_segment_fields ⟨"n1", "id1", "vlan", 42, "m"⟩ "pool").1 rfl
  have hx := (network_segment_fields ⟨"n2", "id2", "vxlan", 7, "m"⟩ "pool").2.1 rfl
  have hf := (network_segment_fields ⟨"n3", "id3", "flat", 0, "m"⟩ "pool").2.2
    (by decide) (by decide)
  exact ⟨hv.1, hv.2, hx.1, hx.2, hf.1, hf.2⟩

/-- Lemma: `create_ip_pool` in closed form once the cidr step succeeds. -/
theorem create_ip_pool_eq (s : Subnet) (nm na : String)
    (hc : cidr_fields s.cidr = some (nm, na)) :
    create_ip_pool s = some (post ip_pools_path
      [("addressRangeStart", (alloc_ranges s.allocation_pools).1),
       ("addressRangeEnd", (alloc_ranges s.allocation_pools).2),
       ("ipAddressSubnet", .str nm),
       ("name", .str s.name),
       ("gateway", s.gateway_ip),
       ("networkAddress", .str na)]) := by
  simp [create_ip_pool, hc]

/-- Field values of the ip-pool body, given that the cidr step produced
`(netmask, network_address)`. -/
theorem create_ip_pool_lookups (s : Subnet) (nm na : String)
    (hc : cidr_fields s.cidr = some (nm, na)) :
    ∃ r, create_ip_pool s = some r ∧
      r.bodyLookup "ipAddressSubnet" = some (.str nm) ∧
      r.bodyLookup "networkAddress" = some (.str na) ∧
      r.bodyLookup "addressRangeStart" = some (alloc_ranges s.allocation_pools).1 ∧
      r.bodyLookup "addressRangeEnd" = some (alloc_ranges s.allocation_pools).2 := by
  refine ⟨_, create_ip_pool_eq s nm na hc, ?_, ?_, ?_, ?_⟩ <;> rfl

/-- The cidr step on `None` yields two empty strings. -/
theorem cidr_fields_none : cidr_fields none = some ("", "") := rfl

/-- The cidr step on `10.0.0.0/24` yields netmask `255.255.255.0` and
network address `10.0.0.0`. -/
theorem cidr_fields_slash24 :
    cidr_fields (some "10.0.0.0/24") = some ("255.255.255.0", "10.0.0.0") := by
  rfl

/-- C5: with `cidr=None` the fields `ipAddressSubnet` and `networkAddress`
are empty strings; whenever the call succeeds with `allocation_pools=[]`
the range fields are the `None` markers (empty string and null kept
distinct); with `cidr="10.0.0.0/24"` the network address is `10.0.0.0` and
the netmask `255.255.255.0`. -/
theorem ip_pool_body (s : Subnet) :
    (s.cidr = none →
      ∃ r, create_ip_pool s = some r ∧
        r.bodyLookup "ipAddressSubnet" = some (.str "") ∧
        r.bodyLookup "networkAddress" = some (.str "")) ∧
    (∀ r, create_ip_pool s = some r → s.allocation_pools = [] →
        r.bodyLookup "addressRangeStart" = some .null ∧
        r.bodyLookup "addressRangeEnd" = some .null) ∧
    (s.cidr = some "10.0.0.0/24" →
      ∃ r, create_ip_pool s = some r ∧
        r.bodyLookup "networkAddress" = some (.str "10.0.0.0") ∧
        r.bodyLookup "ipAddressSubnet" = some (.str "255.255.255.0")) := by
  refine ⟨fun hc => ?_, fun r hr hp => ?_, fun hc => ?_⟩
  · obtain ⟨r, h1, h2, h3, _, _⟩ :=
      create_ip_pool_lookups s "" "" (by rw [hc]; exact cidr_fields_none)
    exact ⟨r, h1, h2, h3⟩
  · cases hcf : cidr_fields s.cidr with
    | none => simp [create_ip_pool, hcf] at hr
    | some pr =>
      obtain ⟨r2, h1, _, _, h4, h5⟩ := create_ip_pool_lookups s pr.1 pr.2 (by simp [hcf])
      rw [h1] at hr
      cases hr
      rw [hp] at h4 h5
      exact ⟨h4, h5⟩
  · obtain ⟨r, h1, h2, h3, _, _⟩ := create_ip_pool_lookups s "255.255.255.0"
      "10.0.0.0" (by rw [hc]; exact cidr_fields_slash24)
    exact ⟨r, h1, h3, h2⟩

/-- Witness for C5 at two concrete subnets: one with no cidr and no
allocation pools, one with cidr `10.0.0.0/24`. -/
theorem ip_pool_body_witness :
    (∃ r, create_ip_pool ⟨none, [], "s1", .null⟩ = some r ∧
      r.bodyLookup "ipAddressSubnet" = some (.str "") ∧
      r.bodyLookup "networkAddress" = some (.str "")) ∧
    (∀ r, create_ip_pool ⟨none, [], "s1", .null⟩ = some r →
      r.bodyLookup "addressRangeStart" = some .null ∧
      r.bodyLookup "addressRangeEnd" = some .null) ∧
    (∃ r, create_ip_pool ⟨some "10.0.0.0/24", [], "s2", .str "10.0.0.1"⟩ = some r ∧
      r.bodyLookup "networkAddress" = some (.str "10.0.0.0") ∧
      r.bodyLookup "ipAddressSubnet" = some (.str "255.255.255.0")) :=
  ⟨(ip_pool_body ⟨none, [], "s1", .null⟩).1 rfl,
   fun r hr => (ip_pool_body ⟨none, [], "s1", .null⟩).2.1 r hr rfl,
   (ip_pool_body ⟨some "10.0.0.0/24", [], "s2", .str "10.0.0.1"⟩).2.2 rfl⟩

/-- C10: only the FIRST allocation pool populates the range fields — the
whole request is unchanged when the later pools change, and the range
fields are `start`/`end` of the first pool. -/
theorem ip_pool_first_pool_only (s : Subnet) (p : AllocationPool)
    (rest : List AllocationPool) :
    create_ip_pool { s with allocation_pools := p :: rest } =
      create_ip_pool { s with allocation_pools := [p] } ∧
    ∀ r, create_ip_pool { s with allocation_pools := p :: rest } = some r →
      r.bodyLookup "addressRangeStart" = some (.str p.start) ∧
      r.bodyLookup "addressRangeEnd" = some (.str p.stop) := by
  constructor
  · cases hcf : cidr_fields s.cidr with
    | none => simp [create_ip_pool, hcf]
    | some pr => simp [create_ip_pool, hcf, alloc_ranges]
  · intro r hr
    cases hcf : cidr_fields s.cidr with
    | none =>
      rw [create_ip_pool] at hr
      simp [hcf] at hr
    | some pr =>
      obtain ⟨r2, h1, _, _, h4, h5⟩ :=
        create_ip_pool_lookups { s with allocation_pools := p :: rest } pr.1 pr.2
          (by simp [hcf])
      rw [h1] at hr
      cases hr
      exact ⟨h4, h5⟩

/-- Witness for C10 at a concrete subnet with two allocation pools: the
second pool is ignored. -/
theorem ip_pool_first_pool_only_witness :
    create_ip_pool ⟨none, [⟨"10.0.0.2", "10.0.0.9"⟩, ⟨"10.0.0.20", "10.0.0.29"⟩],
        "s1", .null⟩ =
      create_ip_pool ⟨none, [⟨"10.0.0.2", "10.0.0.9"⟩], "s1", .null⟩ ∧
    ∀ r, create_ip_pool ⟨none, [⟨"10.0.0.2", "10.0.0.9"⟩, ⟨"10.0.0.20",
        "10.0.0.29"⟩], "s1", .null⟩ = some r →
      r.bodyLookup "addressRangeStart" = some (.str "10.0.0.2") ∧
      r.bodyLookup "addressRangeEnd" = some (.str "10.0.0.9") :=
  ⟨(ip_pool_first_pool_only ⟨none, [], "s1", .null⟩ ⟨"10.0.0.2", "10.0.0.9"⟩
      [⟨"10.0.0.20", "10.0.0.29"⟩]).1,
   fun r hr => (ip_pool_first_pool_only ⟨none, [], "s1", .null⟩
      ⟨"10.0.0.2", "10.0.0.9"⟩ [⟨"10.0.0.20", "10.0.0.29"⟩]).2 r hr⟩

end N1kv
